import Mathlib

/-!
Verification of FooCoCo (a SoftStep foot controller controller) against its
natural-language specification.

The Python sources `foococo.py` and `hardware.py` are shallowly embedded
below.  Continuous sensor values are modelled as rationals (pyo streams are
normalized to [0, 1]); Python integers are `Int`; Python's `%` on integers is
`Int.emod` (both give a result with the sign of the divisor); Python's
`int()` truncation toward zero is `pyInt`; code that can raise is modelled
with `Except PyErr`.  All definitions come first, followed by the lemmas and
the claim theorems.
-/

/-- Python exceptions that the embedded fragments can raise. -/
inductive PyErr
  | zeroDivision
  | attributeError
  | keyError
deriving DecidableEq

/-- Python `int()` applied to a rational: truncation toward zero. -/
def pyInt (q : ℚ) : ℤ :=
  if 0 ≤ q then ⌊q⌋ else -⌊-q⌋

-- ====================================================
-- Module-level constants (foococo.py lines 29-38)
-- ====================================================

/-- foococo.DEFAULT_THRESHOLD (SoftStep 1 press threshold, `.03`). -/
def DEFAULT_THRESHOLD : ℚ := 3 / 100

/-- foococo.DEFAULT_THRESHOLD_SS2 (`.3`). -/
def DEFAULT_THRESHOLD_SS2 : ℚ := 3 / 10

/-- foococo.DEFAULT_CURVE (SoftStep 1). -/
def DEFAULT_CURVE : ℕ := 2

/-- foococo.DEFAULT_CURVE_SS2. -/
def DEFAULT_CURVE_SS2 : ℕ := 20

-- ====================================================
-- The midi-stream intern cache (foococo.py lines 83-92)
-- ====================================================

/-- State of the module-level `_midi_streams` dict together with an
allocation counter: each `pyo.Midictl` ever constructed is identified by a
distinct id, so two sources are reference-identical exactly when their ids
are equal. -/
structure MidiCache where
  streams : List (ℕ × ℕ)
  nextId : ℕ
deriving DecidableEq

/-- The empty `_midi_streams` dict at process start. -/
def emptyCache : MidiCache := ⟨[], 0⟩

/-- foococo._midi_stream (lines 85-92): look the CC number up in
`_midi_streams`; on a miss construct a fresh `Midictl` and intern it. -/
def midiStream (cc : ℕ) (st : MidiCache) : ℕ × MidiCache :=
  match st.streams.lookup cc with
  | some sid => (sid, st)
  | none => (st.nextId, ⟨(cc, st.nextId) :: st.streams, st.nextId + 1⟩)

/-- Run a sequence of `_midi_stream` requests, keeping only the cache. -/
def runFrom (reqs : List ℕ) (st : MidiCache) : MidiCache :=
  reqs.foldl (fun s c => (midiStream c s).2) st

-- ====================================================
-- Button resolution (foococo.py lines 49-81 and 111-152)
-- ====================================================

/-- foococo._button2CC restricted to the numbered buttons (lines 49-66);
the four `nav_*` names resolve through the same dict but take the bare
`_midi_stream(_button2CC[base])` path and never involve a corner. -/
def button2CC : ℕ → Option ℕ
  | 0 => some 72
  | 1 => some 44
  | 2 => some 52
  | 3 => some 60
  | 4 => some 68
  | 5 => some 76
  | 6 => some 40
  | 7 => some 48
  | 8 => some 56
  | 9 => some 64
  | _ => none

/-- foococo._corner2offset for SoftStep 1 (lines 69-74). -/
def corner2offset : List (List Char × ℕ) :=
  [(['t', 'l'], 0), (['t', 'r'], 1), (['b', 'l'], 2), (['b', 'r'], 3)]

/-- foococo._corner2offset_SS2 (lines 76-81). -/
def corner2offset_SS2 : List (List Char × ℕ) :=
  [(['t'], 0), (['r'], 1), (['l'], 2), (['b'], 3)]

/-- The list `['t', 'l', 'b', 'r']` of generic direction letters
(line 141). -/
def genericLetters : List (List Char) := [['t'], ['l'], ['b'], ['r']]

/-- Python's substring test `corner in k` (line 142). -/
def substrOf (sub k : List Char) : Bool := decide (sub <:+: k)

/-- A resolved value source: either a bare `Midictl` stream or
`pyo.Clip(sum of streams, min=0, max=1)` (lines 151-152). -/
inductive Source
  | stream (sid : ℕ)
  | sumClip (sids : List ℕ)
deriving DecidableEq

/-- Resolve each CC number in order through `_midi_stream`, collecting the
stream ids to be summed and clipped. -/
def sumStreams (ccs : List ℕ) (st : MidiCache) : List ℕ × MidiCache :=
  ccs.foldl
    (fun acc cc => (acc.1 ++ [(midiStream cc acc.2).1], (midiStream cc acc.2).2))
    ([], st)

/-- The corner-handling part of foococo.button (lines 136-152), after
`_button2CC[base]` has resolved to `cc`, against the active corner map
`cmap`: a native corner resolves to the single offset sensor; a generic
direction letter that is not native resolves to the sum-clip of the native
sensors whose tag contains that letter; any other corner re-raises the
`KeyError`; no corner sums the four sensors.  The function returns the
result together with the cache, which an error leaves untouched. -/
def buttonCorner (cmap : List (List Char × ℕ)) (cc : ℕ) (crn : List Char)
    (st : MidiCache) : Except PyErr Source × MidiCache :=
  match cmap.lookup crn with
  | some off =>
      (.ok (.stream (midiStream (cc + off) st).1), (midiStream (cc + off) st).2)
  | none =>
      if crn ∈ genericLetters then
        let offsets := (cmap.filter fun p => substrOf crn p.1).map fun p => p.2
        let ss := sumStreams (offsets.map fun o => cc + o) st
        (.ok (.sumClip ss.1), ss.2)
      else
        (.error .keyError, st)

/-- Dispatch of foococo.button on the presence of a corner: no corner sums
the four sensors of the numbered button (line 148). -/
def buttonResolveCC (cmap : List (List Char × ℕ)) (cc : ℕ)
    (corner : Option (List Char)) (st : MidiCache) :
    Except PyErr Source × MidiCache :=
  match corner with
  | some crn => buttonCorner cmap cc crn st
  | none =>
      let ss := sumStreams ((List.range 4).map fun o => cc + o) st
      (.ok (.sumClip ss.1), ss.2)

/-- foococo.button for a numbered base (lines 111-152): resolve the base
number to its CC value, then dispatch on the corner. -/
def buttonResolve (cmap : List (List Char × ℕ)) (base : ℕ)
    (corner : Option (List Char)) (st : MidiCache) :
    Except PyErr Source × MidiCache :=
  match button2CC base with
  | none => (.error .keyError, st)
  | some cc => buttonResolveCC cmap cc corner st

-- ====================================================
-- Press / Release (foococo.py lines 179-234)
-- ====================================================

/-- A `Press` object.  `trig` is the `pyo.Thresh` (modelled by its playing
flag); `trig_f` is `none` when `Press.__init__` took a falsy `callback` and
therefore never assigned the attribute (lines 210-212). -/
structure PressObj where
  trig : Bool
  trig_f : Option Bool
deriving DecidableEq

/-- foococo.Press.__init__ (lines 189-212): the `Thresh` is always created;
the `TrigFunc` attribute `trig_f` exists only when a callback was given. -/
def pressInit (hasCallback : Bool) : PressObj :=
  { trig := true, trig_f := if hasCallback then some true else none }

/-- foococo.Press.stop (lines 215-220): `self.trig.stop()` then
`self.trig_f.stop()`; reading the absent attribute `trig_f` raises
`AttributeError`. -/
def pressStop (p : PressObj) : Except PyErr PressObj :=
  match p.trig_f with
  | none => .error .attributeError
  | some _ => .ok { trig := false, trig_f := some false }

/-- foococo.Press.play (lines 222-227), same attribute access pattern. -/
def pressPlay (p : PressObj) : Except PyErr PressObj :=
  match p.trig_f with
  | none => .error .attributeError
  | some _ => .ok { trig := true, trig_f := some true }

-- ====================================================
-- Pressure (foococo.py lines 316-345)
-- ====================================================

/-- Argument handed to each Pressure callback: `int(source.get()*100)`
(lines 325, 327), for the sampled value `v`. -/
def pressureArg (v : ℚ) : ℤ := pyInt (v * 100)

/-- One firing of the Pressure notifier (lines 322-327): every callback in
the list receives `int(source.get()*100)` as its sole argument (a single
callback is the one-element case). -/
def pressureFire {α : Type} (v : ℚ) (cbs : List (ℤ → α)) : List α :=
  cbs.map fun c => c (pressureArg v)

-- ====================================================
-- Expression (foococo.py lines 349-418)
-- ====================================================

/-- Default `curve` of `Expression.__init__`: `DEFAULT_CURVE*2+1` (line 370). -/
def expressionDefaultCurve : ℕ := DEFAULT_CURVE * 2 + 1

/-- Default `init` of `Expression.__init__` (line 367). -/
def expressionDefaultInit : ℚ := 0

/-- The clamp of `Expression.update` (lines 390-393): `if self.value > 1:
self.value = 1 elif self.value < 0: self.value = 0`. -/
def clamp01 (x : ℚ) : ℚ :=
  if x > 1 then 1 else if x < 0 then 0 else x

/-- One firing of `Expression.update` (lines 382-395): read `up` and `down`,
raise the difference to the odd power `curve`, add to the accumulator, clamp
to [0, 1].  The callbacks are invoked after the clamp with `int(value*100)`
(`expressionCallbackArg`). -/
def expressionTick (curve : ℕ) (v : ℚ) (ud : ℚ × ℚ) : ℚ :=
  clamp01 (v + (ud.1 - ud.2) ^ curve)

/-- The accumulator after a finite sequence of integration ticks, each tick
supplying the sampled `(up, down)` values. -/
def expressionRun (curve : ℕ) (v0 : ℚ) (ticks : List (ℚ × ℚ)) : ℚ :=
  ticks.foldl (expressionTick curve) v0

/-- Argument handed to each Expression callback after a tick:
`int(self.value*100)` (lines 377, 379). -/
def expressionCallbackArg (v : ℚ) : ℤ := pyInt (v * 100)

/-- Configuration of a `pyo.Thresh` trigger: crossing direction (0 = rising
through the threshold, 1 = falling through it) and threshold level. -/
structure ThreshCfg where
  dir : ℕ
  threshold : ℚ
deriving DecidableEq

/-- The two integration-timer triggers built in `Expression.__init__`
(lines 400-401), given the value the global `DEFAULT_THRESHOLD` has at
construction time: `trig_start = Thresh(up+down, dir=0,
threshold=DEFAULT_THRESHOLD)` and `trig_stop = Thresh(up+down, dir=1,
threshold=DEFAULT_THRESHOLD)`. -/
def expressionTriggers (thr : ℚ) : ThreshCfg × ThreshCfg :=
  (⟨0, thr⟩, ⟨1, thr⟩)

-- ====================================================
-- MultiState (foococo.py lines 237-312)
-- ====================================================

/-- A qualifying down-crossing of the `next` or the `prev` trigger. -/
inductive MSEvent
  | nextCross
  | prevCross
deriving DecidableEq

/-- foococo.MultiState.next (lines 278-281): `self.state = (self.state + 1)
% self.length`; Python raises `ZeroDivisionError` when `self.length` is 0. -/
def msAdvance (L : ℕ) (s : ℤ) : Except PyErr ℤ :=
  if L = 0 then .error .zeroDivision else .ok ((s + 1) % (L : ℤ))

/-- foococo.MultiState.prev (lines 284-287): `self.state = (self.state - 1)
% self.length`. -/
def msRetreat (L : ℕ) (s : ℤ) : Except PyErr ℤ :=
  if L = 0 then .error .zeroDivision else .ok ((s - 1) % (L : ℤ))

/-- Dispatch one trigger firing to `next` or `prev`. -/
def msStep (L : ℕ) (s : ℤ) : MSEvent → Except PyErr ℤ
  | .nextCross => msAdvance L s
  | .prevCross => msRetreat L s

/-- Process the crossings in order from state `s`, extending the execution
trace `acc` with, for every transition, the new index and the state callback
`self.states[self.state]` it executes. -/
def msRunEvents {α : Type} (states : List α) (s : ℤ) (acc : List (ℤ × Option α)) :
    List MSEvent → Except PyErr (ℤ × List (ℤ × Option α))
  | [] => .ok (s, acc)
  | e :: es =>
    match msStep states.length s e with
    | .error err => .error err
    | .ok s2 => msRunEvents states s2 (acc ++ [(s2, states.get? s2.toNat)]) es

/-- foococo.MultiState.__init__ with an integer `init` (lines 241-281) plus a
sequence of later trigger crossings: construction sets `state = init - 1` and
calls `next()` once — executing the initial state's callback — and each later
crossing advances or retreats.  The result is the final index together with
the full execution trace (construction included). -/
def msTrace {α : Type} (states : List α) (init : ℤ) (evs : List MSEvent) :
    Except PyErr (ℤ × List (ℤ × Option α)) :=
  match msAdvance states.length (init - 1) with
  | .error e => .error e
  | .ok s0 => msRunEvents states s0 [(s0, states.get? s0.toNat)] evs

-- ====================================================
-- LED callback actions (foococo.py lines 492-524)
-- ====================================================

/-- hardware mode constant `OFF`. -/
def OFF : ℕ := 0

/-- hardware mode constant `ON`. -/
def ON : ℕ := 1

/-- hardware color constant `GREEN`. -/
def GREEN : ℕ := 0

/-- hardware color constant `RED`. -/
def RED : ℕ := 1

/-- foococo.led_off (lines 514-524): the returned callback performs
`hardware.led(num % 10, c, OFF) for c in range(2) for num in nums`; each
produced triple is the `(number, color, mode)` argument of one
`hardware.led` call. -/
def led_off (nums : List ℤ) : List (ℤ × ℕ × ℕ) :=
  (List.range 2).flatMap fun c => nums.map fun num => (num % 10, c, OFF)

/-- foococo.led_on (lines 502-511): remaps input 0 to led 10, then the
returned callback performs one `hardware.led(num, color, ON)` call. -/
def led_on (num : ℤ) (color : ℕ) : ℤ × ℕ × ℕ :=
  ((if num = 0 then 10 else num), color, ON)

-- ====================================================
-- Display formatting (foococo.py lines 527-548, hardware.py lines 138-147)
-- ====================================================

/-- Python `str(m)` for an integer. -/
def numStr (m : ℤ) : List Char :=
  if m < 0 then '-' :: Nat.toDigits 10 m.natAbs else Nat.toDigits 10 m.natAbs

/-- Python `s.ljust(w)`: pad on the right with spaces up to width `w`
(unchanged when `w ≤ len(s)`). -/
def ljust (s : List Char) (w : ℤ) : List Char :=
  s ++ List.replicate (w - s.length).toNat ' '

/-- Python `s[:k]`, including the negative-index case: `k < 0` keeps the
first `len(s) + k` characters (none when that is not positive). -/
def pySliceTo (s : List Char) (k : ℤ) : List Char :=
  if 0 ≤ k then s.take k.toNat else s.take ((s.length : ℤ) + k).toNat

/-- The inner callback of foococo.display (lines 538-546): with a numeric
argument `n`, `text = text.ljust(4-l)[:4-l] + str(n)` where `l = len(str(n))`;
with no argument the label is passed through.  The result is the string
handed to `hardware.display`. -/
def displayFmt (label : List Char) : Option ℤ → List Char
  | none => label
  | some m =>
    let nd := numStr m
    pySliceTo (ljust label (4 - (nd.length : ℤ))) (4 - (nd.length : ℤ)) ++ nd

/-- hardware.display (lines 138-147): truncate to 4 characters and pad with
spaces to exactly 4 before sending character codes to the device. -/
def hardwareDisplay (text : List Char) : List Char :=
  text.take 4 ++ List.replicate (4 - (text.take 4).length) ' '

-- ====================================================
-- Lemmas
-- ====================================================

theorem clamp01_nonneg (x : ℚ) : 0 ≤ clamp01 x := by
  unfold clamp01
  split_ifs <;> linarith

theorem clamp01_le_one (x : ℚ) : clamp01 x ≤ 1 := by
  unfold clamp01
  split_ifs <;> linarith

theorem expressionRun_mem (curve : ℕ) (ticks : List (ℚ × ℚ)) :
    ∀ v0 : ℚ, 0 ≤ v0 → v0 ≤ 1 →
      0 ≤ expressionRun curve v0 ticks ∧ expressionRun curve v0 ticks ≤ 1 := by
  induction ticks with
  | nil => intro v0 h0 h1; exact ⟨h0, h1⟩
  | cons t ts ih =>
      intro v0 _ _
      simpa [expressionRun] using
        ih (expressionTick curve v0 t) (clamp01_nonneg _) (clamp01_le_one _)

theorem midiStream_eq_of_lookup (c : ℕ) (st : MidiCache) (i : ℕ)
    (h : st.streams.lookup c = some i) : midiStream c st = (i, st) := by
  unfold midiStream
  rw [h]

theorem lookup_midiStream_self (c : ℕ) (st : MidiCache) :
    ((midiStream c st).2).streams.lookup c = some (midiStream c st).1 := by
  unfold midiStream
  cases h : st.streams.lookup c with
  | some sid => simp [h]
  | none => simp [h, List.lookup]

theorem lookup_midiStream_stable (d : ℕ) (st : MidiCache) (c : ℕ) (i : ℕ)
    (h : st.streams.lookup c = some i) :
    ((midiStream d st).2).streams.lookup c = some i := by
  unfold midiStream
  cases hd : st.streams.lookup d with
  | some sid => simpa [hd] using h
  | none =>
      simp only [hd, List.lookup]
      have hne : (c == d) = false := by
        by_contra hcd
        have : c = d := by
          have := eq_of_beq (a := c) (b := d)
          cases hb : c == d with
          | true => exact this hb
          | false => exact absurd hb hcd
        rw [this] at h
        rw [h] at hd
        exact Option.noConfusion hd
      simp [hne, h]

theorem lookup_runFrom_stable (reqs : List ℕ) :
    ∀ (st : MidiCache) (c : ℕ) (i : ℕ), st.streams.lookup c = some i →
      (runFrom reqs st).streams.lookup c = some i := by
  induction reqs with
  | nil => intro st c i h; exact h
  | cons d ds ih =>
      intro st c i h
      exact ih _ c i (lookup_midiStream_stable d st c i h)

theorem lookup_none_not_mem (l : List (ℕ × ℕ)) (c : ℕ)
    (h : l.lookup c = none) : c ∉ l.map Prod.fst := by
  induction l with
  | nil => simp
  | cons p ps ih =>
      simp only [List.lookup] at h
      cases hb : c == p.1 with
      | true => rw [hb] at h; exact Option.noConfusion h
      | false =>
          rw [hb] at h
          simp only [List.map_cons, List.mem_cons]
          intro hmem
          rcases hmem with heq | hmem
          · rw [heq] at hb
            simp at hb
          · exact ih h hmem

theorem nodup_midiStream (c : ℕ) (st : MidiCache)
    (h : (st.streams.map Prod.fst).Nodup) :
    (((midiStream c st).2).streams.map Prod.fst).Nodup := by
  unfold midiStream
  cases hc : st.streams.lookup c with
  | some sid => simpa [hc] using h
  | none =>
      simp only [hc, List.map_cons, List.nodup_cons]
      exact ⟨lookup_none_not_mem st.streams c hc, h⟩

theorem nodup_runFrom (reqs : List ℕ) :
    ∀ st : MidiCache, (st.streams.map Prod.fst).Nodup →
      ((runFrom reqs st).streams.map Prod.fst).Nodup := by
  induction reqs with
  | nil => intro st h; exact h
  | cons d ds ih => intro st h; exact ih _ (nodup_midiStream d st h)

-- ====================================================
-- Claim theorems
-- ====================================================

/-- C1: starting from the default initial accumulator value 0, after every
finite sequence of integration ticks (each adding the curved difference and
clamping to [0, 1] before the callbacks are invoked), the Expression
accumulator stays in [0, 1] — for every curve, hence for both
device-generation defaults, and for arbitrary (even saturated) up/down
samples. -/
theorem C1_expression_value_confined (curve : ℕ) (ticks : List (ℚ × ℚ)) :
    0 ≤ expressionRun curve expressionDefaultInit ticks ∧
      expressionRun curve expressionDefaultInit ticks ≤ 1 :=
  expressionRun_mem curve ticks expressionDefaultInit (by norm_num [expressionDefaultInit])
    (by norm_num [expressionDefaultInit])

/-- C3: the `_midi_streams` cache makes value sources singletons per CC
number: (a) once a channel has been resolved, resolving it again after any
interleaved other resolutions returns the reference-identical stream;
(b) an immediately repeated resolution also leaves the cache untouched;
(c) starting from the empty cache, any request sequence leaves at most one
interned stream per distinct channel number. -/
theorem C3_midi_stream_singleton :
    (∀ (st : MidiCache) (c : ℕ) (mid : List ℕ),
        (midiStream c (runFrom mid (midiStream c st).2)).1 = (midiStream c st).1) ∧
      (∀ (st : MidiCache) (c : ℕ),
        midiStream c (midiStream c st).2 = ((midiStream c st).1, (midiStream c st).2)) ∧
      (∀ reqs : List ℕ, ((runFrom reqs emptyCache).streams.map Prod.fst).Nodup) := by
  refine ⟨?_, ?_, ?_⟩
  · intro st c mid
    have h1 := lookup_midiStream_self c st
    have h2 := lookup_runFrom_stable mid _ c _ h1
    rw [midiStream_eq_of_lookup c _ _ h2]
  · intro st c
    have h1 := lookup_midiStream_self c st
    rw [midiStream_eq_of_lookup c _ _ h1]
  · intro reqs
    exact nodup_runFrom reqs emptyCache (by simp [emptyCache])

/-- C4 counterexample: the claim says the start and stop thresholds of the
Expression integration timer differ, the stop threshold defaulting to 1/127;
in the code (foococo.py lines 400-401) both `Thresh` objects are built with
the same `DEFAULT_THRESHOLD`, so at the SoftStep 1 default the two thresholds
are equal and the stop threshold is 3/100, not 1/127. -/
theorem C4_counterexample :
    (expressionTriggers DEFAULT_THRESHOLD).1.threshold =
        (expressionTriggers DEFAULT_THRESHOLD).2.threshold ∧
      (expressionTriggers DEFAULT_THRESHOLD).2.threshold ≠ 1 / 127 := by
  constructor
  · rfl
  · norm_num [expressionTriggers, DEFAULT_THRESHOLD]

/-- C2: for `states = [A, B, C]` with the default initial index 0, the
execution trace is: A once at construction; after 1 down-crossing of `next`,
B; after 2, C; after 3, A again (index advances `(index + 1) mod 3`); and
one down-crossing of `prev` from state A executes C, the index retreating to
`(0 - 1) mod 3 = 2`, never a negative index. -/
theorem C2_multistate_cycle (α : Type) (a b c : α) :
    msTrace [a, b, c] 0 [] = .ok (0, [(0, some a)]) ∧
      msTrace [a, b, c] 0 [.nextCross] = .ok (1, [(0, some a), (1, some b)]) ∧
      msTrace [a, b, c] 0 [.nextCross, .nextCross] =
        .ok (2, [(0, some a), (1, some b), (2, some c)]) ∧
      msTrace [a, b, c] 0 [.nextCross, .nextCross, .nextCross] =
        .ok (0, [(0, some a), (1, some b), (2, some c), (0, some a)]) ∧
      msTrace [a, b, c] 0 [.prevCross] = .ok (2, [(0, some a), (2, some c)]) := by
  refine ⟨?_, ?_, ?_, ?_, ?_⟩ <;>
    simp [msTrace, msRunEvents, msStep, msAdvance, msRetreat]

/-- C5: evaluating `Press.stop` at the claim's input shows the code bug: a
Press constructed without a callback (valid per the signature's default
`callback=None`) never assigns `self.trig_f`, so its first `stop()` — played
or not — raises `AttributeError` instead of deactivating idempotently; with
a callback present, `stop()` succeeds. -/
theorem C5_stop_without_callback_fails :
    pressStop (pressInit false) = .error .attributeError ∧
      pressStop (pressInit true) = .ok { trig := false, trig_f := some false } :=
  ⟨rfl, rfl⟩

/-- C6: on a Pressure firing with sampled value `v ∈ [0, 1]`, the value is
scaled to the integer `int(v*100)`, which lies in 0..100, and every callback
in the list receives exactly that integer as its sole argument. -/
theorem C6_pressure_scaled_arg (v : ℚ) (h0 : 0 ≤ v) (h1 : v ≤ 1) :
    0 ≤ pressureArg v ∧ pressureArg v ≤ 100 ∧
      ∀ n : ℕ, pressureFire v (List.replicate n (fun i : ℤ => i)) =
        List.replicate n (pressureArg v) := by
  have hv : (0 : ℚ) ≤ v * 100 := mul_nonneg h0 (by norm_num)
  refine ⟨?_, ?_, ?_⟩
  · unfold pressureArg pyInt
    rw [if_pos hv]
    exact Int.floor_nonneg.mpr hv
  · unfold pressureArg pyInt
    rw [if_pos hv]
    have h2 : ((⌊v * 100⌋ : ℤ) : ℚ) ≤ v * 100 := Int.floor_le _
    have h3 : v * 100 ≤ 100 := by linarith
    have h4 : ((⌊v * 100⌋ : ℤ) : ℚ) ≤ (100 : ℚ) := le_trans h2 h3
    exact_mod_cast h4
  · intro n
    simp [pressureFire]

/-- C6 witness: the theorem applied at the concrete sampled value 1
(both sources fully pressed), where the scaled argument is 100. -/
theorem C6_pressure_scaled_arg_witness :
    0 ≤ pressureArg 1 ∧ pressureArg 1 ≤ 100 ∧
      ∀ n : ℕ, pressureFire 1 (List.replicate n (fun i : ℤ => i)) =
        List.replicate n (pressureArg 1) :=
  C6_pressure_scaled_arg 1 zero_le_one le_rfl

/-- C7 counterexample: `display('2>')` invoked with 12345 hands the 6-character
string "212345" to the driver — `'2>'.ljust(-1)[:-1]` drops the label's last
character and prepends the rest to the digits — so the string produced before
the driver is not of length 4 as the claim states. -/
theorem C7_counterexample :
    displayFmt ['2', '>'] (some 12345) = ['2', '1', '2', '3', '4', '5'] ∧
      (displayFmt ['2', '>'] (some 12345)).length ≠ 4 := by
  refine ⟨?_, ?_⟩ <;> decide

/-- C7 (amended): `display('2>')` invoked with 45 produces exactly the
4-character string "2>45" (label left-justified, number right-justified);
invoked with 12345 it produces the 6-character string "212345", and only the
driver's own truncation (`hardware.display`) cuts the displayed text to the
4 characters "2123". -/
theorem C7_display_formatting :
    displayFmt ['2', '>'] (some 45) = ['2', '>', '4', '5'] ∧
      (displayFmt ['2', '>'] (some 45)).length = 4 ∧
      displayFmt ['2', '>'] (some 12345) = ['2', '1', '2', '3', '4', '5'] ∧
      hardwareDisplay (displayFmt ['2', '>'] (some 12345)) = ['2', '1', '2', '3'] := by
  refine ⟨?_, ?_, ?_, ?_⟩ <;> decide

/-- C8: constructing a MultiState over an empty states list with an integer
initial index (the default is 0) fails during construction itself — the
`next()` call in `__init__` evaluates `(init - 1 + 1) % 0`, a
`ZeroDivisionError` — whatever later crossings were planned, so no trigger
can ever fire against the zero-length list. -/
theorem C8_empty_states_fails_at_construction (i : ℤ) (evs : List MSEvent) :
    msTrace ([] : List ℕ) i evs = .error .zeroDivision :=
  rfl

/-- C9: resolving a button with a corner tag that is neither in the active
(SoftStep 1) corner map nor one of the generic direction letters returns the
`KeyError` (the spec's `InvalidCornerSpec`) and leaves the stream cache
exactly as it was, so previously resolved Buttons are unaffected; whereas the
generic letter 't', not native to SoftStep 1, resolves to the sum-clip of the
two native sensors whose tag contains 't' (offsets 0 and 1, CCs 44 and 45
for button 1). -/
theorem C9_invalid_corner (crn : List Char) (st : MidiCache)
    (h1 : corner2offset.lookup crn = none) (h2 : crn ∉ genericLetters) :
    buttonResolve corner2offset 1 (some crn) st = (.error .keyError, st) ∧
      buttonResolve corner2offset 1 (some ['t']) st =
        (.ok (.sumClip [(midiStream 44 st).1, (midiStream 45 (midiStream 44 st).2).1]),
          (midiStream 45 (midiStream 44 st).2).2) := by
  constructor
  · show buttonCorner corner2offset 44 crn st = (.error .keyError, st)
    unfold buttonCorner
    rw [h1]
    simp [h2]
  · rfl

/-- C9 witness: the theorem applied at the concrete invalid corner tag "x"
and the empty cache. -/
theorem C9_invalid_corner_witness :
    buttonResolve corner2offset 1 (some ['x']) emptyCache =
        (.error .keyError, emptyCache) ∧
      buttonResolve corner2offset 1 (some ['t']) emptyCache =
        (.ok (.sumClip [(midiStream 44 emptyCache).1,
            (midiStream 45 (midiStream 44 emptyCache).2).1]),
          (midiStream 45 (midiStream 44 emptyCache).2).2) :=
  C9_invalid_corner ['x'] emptyCache (by decide) (by decide)

/-- C10: the callback returned by `led_off` invokes the hardware led
operation with led number `n % 10`, once per color (green pass then red
pass); in particular input 10 addresses the driver with number 0 — the
opposite of `led_on`'s alias, which remaps input 0 to led 10. -/
theorem C10_led_off_mod_ten (n : ℤ) (nums : List ℤ) :
    led_off [n] = [(n % 10, GREEN, OFF), (n % 10, RED, OFF)] ∧
      led_off nums =
        ((nums.map fun num => (num % 10, GREEN, OFF)) ++
          (nums.map fun num => (num % 10, RED, OFF))) ∧
      led_off [10] = [(0, GREEN, OFF), (0, RED, OFF)] ∧
      led_on 0 GREEN = (10, GREEN, ON) := by
  refine ⟨rfl, ?_, by decide, rfl⟩
  simp [led_off, show List.range 2 = [0, 1] from rfl, GREEN, RED]

/-- C4 (amended): both the start and the stop detector of the Expression
integration timer use the generic press threshold `DEFAULT_THRESHOLD`
(3/100 for SoftStep 1); the hysteresis is in the crossing direction only
(start fires on a rising crossing, dir 0; stop on a falling crossing,
dir 1), and the two thresholds are equal. -/
theorem C4_equal_thresholds :
    (expressionTriggers DEFAULT_THRESHOLD).1 = ⟨0, DEFAULT_THRESHOLD⟩ ∧
      (expressionTriggers DEFAULT_THRESHOLD).2 = ⟨1, DEFAULT_THRESHOLD⟩ ∧
      (expressionTriggers DEFAULT_THRESHOLD).1.threshold =
        (expressionTriggers DEFAULT_THRESHOLD).2.threshold :=
  ⟨rfl, rfl, rfl⟩
